import Mathlib

/-!
# Symptom Analysis & Triage Engine — shallow embedding and verification

This file embeds the core triage logic of the chatbot-gastro repository in
Lean 4 and proves (or refutes) the spec's claims about it.

Embedded source components:

* `MedicalContentSanitizer.sanitize` and the validators of
  `backend/src/utils/medicalUtils.ts`;
* `MedicalAIService.processMessage`, `detectEmergency`,
  `handleEmergencyResponse` and `generateMessageId`
  (`backend/src/services/medicalAI.ts`);
* `ChatController.determineRiskLevel` (`backend/src/controllers/chatController.ts`);
* `DiseaseController.searchDiseasesBySymptoms`, `calculateSymptomMatchScore`,
  `determineUrgencyLevel`, `getUrgencyIndicators`, `getSearchRecommendations`
  (`backend/src/controllers/diseaseController.ts`);
* `DatabaseService.findDiseasesBySymptoms` (`backend/src/services/database.ts`).

JavaScript strings are modelled as `List Char`; JS numbers that carry scores
are modelled as `ℚ`; fallible entry points return `Except`.
-/

namespace ChatbotGastro

/-! ## String primitives (model of the JS string operations used) -/

/-- The character list of a string literal (JS strings are modelled as `List Char`). -/
def str (s : String) : List Char := s.data

/-- Model of JS `String.prototype.toLowerCase` on one character, covering the
ASCII range plus the accented Spanish uppercase letters that occur in this
codebase's phrase lists. -/
def jsToLower (c : Char) : Char :=
  if 'A' ≤ c ∧ c ≤ 'Z' then Char.ofNat (c.toNat + 32)
  else if c = 'Á' then 'á'
  else if c = 'É' then 'é'
  else if c = 'Í' then 'í'
  else if c = 'Ó' then 'ó'
  else if c = 'Ú' then 'ú'
  else if c = 'Ñ' then 'ñ'
  else if c = 'Ü' then 'ü'
  else c

/-- Model of JS `toLowerCase` on a whole string. -/
def lowerStr (s : List Char) : List Char := s.map jsToLower

/-- Model of JS `String.prototype.includes`: `needle` occurs as a contiguous
substring of `hay`. -/
def containsSub (needle hay : List Char) : Bool :=
  (List.range (hay.length + 1)).any (fun i => needle.isPrefixOf (hay.drop i))

/-- Whitespace characters matched by the regex `\s` (main cases). -/
def isWs (c : Char) : Bool :=
  c = ' ' || c = '\t' || c = '\n' || c = '\r' || c = '\x0b' || c = '\x0c'

/-- Model of JS `String.prototype.trim`. -/
def jsTrim (l : List Char) : List Char :=
  ((l.dropWhile isWs).reverse.dropWhile isWs).reverse

/-- The characters removed by `MedicalContentSanitizer.sanitize`'s regex
`[<>{}[\]\\\/]` (braces written with escapes). -/
def isDangerousChar (c : Char) : Bool :=
  c = '<' || c = '>' || c = '\x7b' || c = '\x7d' ||
  c = '[' || c = ']' || c = '\\' || c = '/'

/-- Model of the regex replacement `\s+` → `' '`: every maximal run of
whitespace becomes a single space.  The flag records whether the previous
character belonged to a whitespace run. -/
def collapseWs : Bool → List Char → List Char
  | _, [] => []
  | prevWs, c :: rest =>
    if isWs c then
      if prevWs then collapseWs true rest else ' ' :: collapseWs true rest
    else c :: collapseWs false rest

/-! ## MedicalContentSanitizer (medicalUtils.ts, lines 131–203) -/

/-- `FORBIDDEN_TERMS` of `MedicalContentSanitizer`. -/
def FORBIDDEN_TERMS : List (List Char) :=
  [str "drogas", str "narcóticos", str "receta falsa", str "farmacia ilegal",
   str "comprar pastillas", str "medicamentos baratos"]

/-- The pure transformation chain of `sanitize`:
trim, lowercase, strip dangerous characters, collapse whitespace, then
truncate to the first 2000 characters (`substring(0, 2000)`). -/
def sanitizeCore (content : List Char) : List Char :=
  (collapseWs false (((jsTrim content).map jsToLower).filter
    (fun c => !isDangerousChar c))).take 2000

/-- The forbidden-term scan performed by `sanitize` after the transformation. -/
def hasForbiddenTerm (s : List Char) : Bool :=
  FORBIDDEN_TERMS.any (fun t => containsSub t s)

/-- `MedicalContentSanitizer.sanitize`.  An empty (falsy) input short-circuits
to the empty string; a sanitized text containing a forbidden term makes the
function throw, modelled as `Except.error` with the thrown message. -/
def sanitize (content : List Char) : Except (List Char) (List Char) :=
  if content = [] then .ok []
  else
    if hasForbiddenTerm (sanitizeCore content) then
      .error (str "Contenido no apropiado para consulta médica")
    else .ok (sanitizeCore content)

/-! ## Emergency detection (medicalAI.ts, lines 21–38, 162–207) -/

/-- `CRITICAL_EMERGENCY_KEYWORDS` of `MedicalAIService`. -/
def CRITICAL_EMERGENCY_KEYWORDS : List (List Char) :=
  [str "no puedo respirar", str "dolor de pecho intenso", str "sangrado abundante",
   str "vómito con sangre", str "heces con sangre", str "dolor abdominal severo",
   str "pérdida de conciencia", str "desmayo", str "convulsiones",
   str "dificultad respiratoria", str "sangrado rectal abundante", str "vómito negro",
   str "abdomen rígido", str "dolor que no cede", str "fiebre muy alta",
   str "deshidratación severa"]

/-- `MedicalAIService.detectEmergency`: is any critical phrase a
case-insensitive substring of the message? -/
def detectEmergency (message : List Char) : Bool :=
  CRITICAL_EMERGENCY_KEYWORDS.any (fun k => containsSub (lowerStr k) (lowerStr message))

/-- The keyword list computed in `MedicalAIService.handleEmergencyResponse`
by filtering the whole phrase list (exhaustive, not short-circuited). -/
def detectedEmergencyKeywords (message : List Char) : List (List Char) :=
  CRITICAL_EMERGENCY_KEYWORDS.filter (fun k => containsSub (lowerStr k) (lowerStr message))

/-! ## processMessage pipeline (medicalAI.ts, lines 87–157) -/

/-- The optional structured user context accompanying a chat request. -/
structure UserContext where
  age : Option Nat
  painLevel : Option Nat
  symptoms : List (List Char)
  duration : Option (List Char)
deriving DecidableEq, Repr

/-- Outcome of `MedicalAIService.processMessage`, abstracting the external
generative-AI call: `errorFallback` is the catch-branch response (which has
`emergencyDetected: false`), `emergency` is `handleEmergencyResponse`
(`emergencyDetected: true`), `aiFlow` continues to the external Gemini call
whose assembled response hardcodes `emergencyDetected: false`. -/
inductive ChatOutcome where
  | errorFallback
  | emergency (keywords : List (List Char))
  | aiFlow (sanitized : List Char)
deriving DecidableEq, Repr

/-- `MedicalAIService.processMessage`: sanitize, then detect emergency, then
either the emergency response or the AI flow.  The user context is not
consulted before the emergency decision. -/
def processMessage (message : List Char) (_ctx : UserContext) : ChatOutcome :=
  match sanitize message with
  | .error _ => .errorFallback
  | .ok s =>
    if detectEmergency s then .emergency (detectedEmergencyKeywords s)
    else .aiFlow s

/-- The `emergencyDetected` field of the response each outcome assembles. -/
def emergencyDetectedOf : ChatOutcome → Bool
  | .emergency _ => true
  | _ => false

/-! ## Emergency response object (medicalAI.ts, lines 173–207, 393–395;
medicalUtils.ts, lines 321–361) -/

/-- `joinWith sep l` is `l.join(sep)` in JS. -/
def joinWith (sep : List Char) : List (List Char) → List Char
  | [] => []
  | [a] => a
  | a :: rest => a ++ sep ++ joinWith sep rest

/-- `MedicalResponseFormatter.formatSymptomsList`. -/
def formatSymptomsList (symptoms : List (List Char)) : List Char :=
  match symptoms with
  | [] => str "Ningún síntoma específico"
  | [a] => a
  | [a, b] => a ++ str " y " ++ b
  | l => joinWith (str ", ") l.dropLast ++ str " y " ++ l.getLastD []

/-- `MedicalResponseFormatter.formatEmergencyMessage`. -/
def formatEmergencyMessage (detectedSymptoms : List (List Char)) : List Char :=
  str "🚨 EMERGENCIA MÉDICA DETECTADA\n\nLos síntomas que ha descrito (" ++
  formatSymptomsList detectedSymptoms ++
  str ") pueden indicar una emergencia médica.\n\nACCIÓN INMEDIATA REQUERIDA:\n• Llame al 911 inmediatamente\n• Acuda al hospital más cercano\n• No espere a que los síntomas mejoren\n\nNÚMEROS DE EMERGENCIA:\n• Emergencias generales: 911\n• Control de envenenamiento: 1-800-222-1222\n• Crisis de salud mental: 988\n\nEste sistema NO puede reemplazar la atención médica profesional inmediata."

/-- `MedicalAIService.generateMessageId`: built from `Date.now()` (the `now`
parameter) and `Math.random().toString(36).substr(2, 9)` (the `rand`
parameter) — the two sources of nondeterminism are made explicit inputs. -/
def generateMessageId (now : Nat) (rand : List Char) : List Char :=
  str "msg_" ++ (Nat.repr now).data ++ str "_" ++ rand

/-- The fields of the `ChatResponse` assembled by `handleEmergencyResponse`
(metadata omitted). -/
structure ChatResponseModel where
  message : List Char
  sessionId : List Char
  messageId : List Char
  confidence : ℚ
  emergencyDetected : Bool
  suggestedActions : List (List Char)
  disclaimer : List Char
  timestamp : Nat
deriving DecidableEq, Repr

/-- `MedicalAIService.handleEmergencyResponse` as a function of the request's
session id, the sanitized message, and the ambient clock/randomness. -/
def emergencyResponse (sessionId msg : List Char) (now : Nat) (rand : List Char) :
    ChatResponseModel where
  message := formatEmergencyMessage (detectedEmergencyKeywords msg)
  sessionId := sessionId
  messageId := generateMessageId now rand
  confidence := 1
  emergencyDetected := true
  suggestedActions :=
    [str "Llame al 911 inmediatamente", str "Acuda al hospital más cercano",
     str "No espere a que los síntomas mejoren",
     str "Si está solo, pida ayuda a alguien cercano"]
  disclaimer := str "ESTO ES UNA EMERGENCIA MÉDICA. BUSQUE ATENCIÓN INMEDIATA."
  timestamp := now

/-! ## ChatController.determineRiskLevel (chatController.ts, lines 438–452) -/

/-- The conversation risk level. -/
inductive RiskLevel where
  | low | medium | high | emergency
deriving DecidableEq, Repr

/-- `ChatController.determineRiskLevel`. -/
def determineRiskLevel (emergencyDetected : Bool) (confidence : ℚ) : RiskLevel :=
  if emergencyDetected then .emergency
  else if confidence < 1/2 then .high
  else if confidence < 7/10 then .medium
  else .low

/-! ## Disease catalog and matcher
(diseaseController.ts, lines 518–637 and 689–772; database.ts, lines 138–160) -/

/-- `Disease.severityLevel` (`'mild' | 'moderate' | 'severe' | 'emergency'`). -/
inductive Severity where
  | mild | moderate | severe | emergency
deriving DecidableEq, Repr

/-- The catalog fields of a `Disease` row used by the matcher. -/
structure Disease where
  id : Nat
  name : List Char
  description : List Char
  symptoms : List (List Char)
  severityLevel : Severity
  category : List Char
  isActive : Bool
deriving DecidableEq, Repr

/-- The symptom sanitization of `searchDiseasesBySymptoms` (lines 539–541):
drop entries whose trim is empty, then trim and lowercase the rest. -/
def sanitizeSymptoms (symptoms : List (List Char)) : List (List Char) :=
  (symptoms.filter (fun s => 0 < (jsTrim s).length)).map (fun s => lowerStr (jsTrim s))

/-- `DatabaseService.findDiseasesBySymptoms`: active diseases whose `symptoms`
array has some member of the searched list (Prisma `hasSome`, exact string
equality).  The catalog list stands for the database snapshot in its returned
order. -/
def findDiseasesBySymptoms (catalog : List Disease) (symptoms : List (List Char)) :
    List Disease :=
  catalog.filter (fun d => d.isActive && d.symptoms.any (fun s => symptoms.contains s))

/-- The per-disease `matchingSymptoms` filter of `searchDiseasesBySymptoms`
(lines 556–561): a catalog symptom matches when it contains a searched symptom
or is contained in one (both sides lowercased). -/
def matchingSymptomsOf (userSymptoms : List (List Char)) (d : Disease) :
    List (List Char) :=
  d.symptoms.filter (fun s =>
    userSymptoms.any (fun u => containsSub u (lowerStr s) || containsSub (lowerStr s) u))

/-- One scored candidate of `searchDiseasesBySymptoms` (lines 565–576). -/
structure ScoredDisease where
  id : Nat
  name : List Char
  severityLevel : Severity
  category : List Char
  matchingSymptoms : List (List Char)
  totalSymptoms : Nat
  matchScore : ℚ
  urgencyIndicators : List (List Char)
deriving DecidableEq, Repr

/-- The `alarmSymptoms` list of `getUrgencyIndicators` (line 701). -/
def ALARM_SYMPTOMS : List (List Char) :=
  [str "sangre", str "sangrado", str "dolor intenso", str "fiebre alta",
   str "dificultad respirar"]

/-- `DiseaseController.getUrgencyIndicators` (lines 689–711). -/
def getUrgencyIndicators (severityLevel : Severity) (matchingSymptoms : List (List Char)) :
    List (List Char) :=
  let base : List (List Char) :=
    match severityLevel with
    | .emergency => [str "Requiere atención médica inmediata",
                     str "Contacte servicios de emergencia"]
    | .severe => [str "Consulte con un médico pronto", str "Monitoree síntomas de cerca"]
    | _ => []
  let hasAlarm := matchingSymptoms.any
    (fun s => ALARM_SYMPTOMS.any (fun a => containsSub a (lowerStr s)))
  if hasAlarm then base ++ [str "Síntomas de alarma detectados"] else base

/-- The candidate record built for one matching disease, with
`matchScore = matchingSymptoms.length / disease.symptoms.length` (line 563). -/
def scoreDisease (userSymptoms : List (List Char)) (d : Disease) : ScoredDisease where
  id := d.id
  name := d.name
  severityLevel := d.severityLevel
  category := d.category
  matchingSymptoms := matchingSymptomsOf userSymptoms d
  totalSymptoms := d.symptoms.length
  matchScore := ((matchingSymptomsOf userSymptoms d).length : ℚ) / (d.symptoms.length : ℚ)
  urgencyIndicators := getUrgencyIndicators d.severityLevel (matchingSymptomsOf userSymptoms d)

/-- The `severityOrder` map of the sort comparator (line 586):
`{ emergency: 4, severe: 3, moderate: 2, mild: 1 }`. -/
def sevRank : Severity → Nat
  | .emergency => 4
  | .severe => 3
  | .moderate => 2
  | .mild => 1

/-- The ordering realised by the comparator of lines 581–589: higher
`matchScore` first, ties broken by higher severity rank first.
`candBefore a b` holds when `a` may come before `b`. -/
def candBefore (a b : ScoredDisease) : Prop :=
  b.matchScore < a.matchScore ∨
    (a.matchScore = b.matchScore ∧ sevRank b.severityLevel ≤ sevRank a.severityLevel)

instance : DecidableRel candBefore := fun a b => by
  unfold candBefore; exact inferInstance

instance : IsTotal ScoredDisease candBefore where
  total a b := by
    rcases lt_trichotomy a.matchScore b.matchScore with h | h | h
    · exact Or.inr (Or.inl h)
    · rcases Nat.le_total (sevRank b.severityLevel) (sevRank a.severityLevel) with hs | hs
      · exact Or.inl (Or.inr ⟨h, hs⟩)
      · exact Or.inr (Or.inr ⟨h.symm, hs⟩)
    · exact Or.inl (Or.inl h)

instance : IsTrans ScoredDisease candBefore where
  trans a b c hab hbc := by
    rcases hab with hab | ⟨hab, hab'⟩ <;> rcases hbc with hbc | ⟨hbc, hbc'⟩
    · exact Or.inl (hbc.trans hab)
    · exact Or.inl (hbc ▸ hab)
    · exact Or.inl (hab ▸ hbc)
    · exact Or.inr ⟨hab.trans hbc, le_trans hbc' hab'⟩

/-- All scored candidates, in database order, before sorting
(lines 552–577). -/
def scoredAll (catalog : List Disease) (users : List (List Char)) : List ScoredDisease :=
  (findDiseasesBySymptoms catalog users).map (scoreDisease users)

/-- The sorted, truncated candidate list: sort by the comparator, then
`slice(0, 10)` (lines 580–590). -/
def scoredCandidates (catalog : List Disease) (users : List (List Char)) :
    List ScoredDisease :=
  (List.insertionSort candBefore (scoredAll catalog users)).take 10

/-- The aggregated urgency label of lines 593–598 (a JS string:
`'emergency' | 'high' | 'medium' | 'low'`). -/
def searchUrgencyLevel (sorted : List ScoredDisease) : List Char :=
  if sorted.any (fun d => d.severityLevel == Severity.emergency) then str "emergency"
  else if sorted.any (fun d => d.severityLevel == Severity.severe) then str "high"
  else if 0 < sorted.length then str "medium"
  else str "low"

/-- `DiseaseController.getSearchRecommendations` (lines 716–750).  The
`diseases` argument is accepted and ignored, as in the source. -/
def getSearchRecommendations (urgencyLevel : List Char)
    (_diseases : List ScoredDisease) : List (List Char) :=
  if urgencyLevel = str "emergency" then
    [str "Busque atención médica inmediata", str "Llame al 911 o acuda a emergencias",
     str "No espere a que los síntomas mejoren",
     str "Mantenga un registro detallado de síntomas"]
  else if urgencyLevel = str "high" then
    [str "Consulte con un médico en las próximas 24 horas",
     str "Monitoree síntomas de cerca", str "Evite automedicarse",
     str "Busque atención si los síntomas empeoran"]
  else if urgencyLevel = str "medium" then
    [str "Considere consultar con un médico", str "Mantenga un registro de síntomas",
     str "Practique medidas de autocuidado apropiadas",
     str "Busque atención si los síntomas persisten"]
  else
    [str "Mantenga hábitos saludables", str "Monitoree síntomas ocasionalmente",
     str "Consulte si los síntomas persisten o empeoran",
     str "Practique medidas preventivas"]

/-- The successful response payload of `searchDiseasesBySymptoms`
(lines 614–625). -/
structure SearchData where
  searchedSymptoms : List (List Char)
  matchingDiseases : List ScoredDisease
  urgencyLevel : List Char
  totalMatches : Nat
  recommendations : List (List Char)
deriving DecidableEq, Repr

/-- The post-validation body of `searchDiseasesBySymptoms`, applied to the
already-sanitized symptom list. -/
def searchCore (catalog : List Disease) (users : List (List Char)) : SearchData :=
  let sorted := scoredCandidates catalog users
  { searchedSymptoms := users
    matchingDiseases := sorted
    urgencyLevel := searchUrgencyLevel sorted
    totalMatches := sorted.length
    recommendations := getSearchRecommendations (searchUrgencyLevel sorted) sorted }

/-- `DiseaseController.searchDiseasesBySymptoms` (lines 518–637), including
its input validation; thrown validation errors are modelled as `Except.error`
with the thrown message. -/
def searchDiseasesBySymptoms (catalog : List Disease) (raws : List (List Char)) :
    Except (List Char) SearchData :=
  if raws = [] then .error (str "Symptoms array is required and must not be empty")
  else if 20 < raws.length then .error (str "Too many symptoms provided (maximum 20)")
  else
    if sanitizeSymptoms raws = [] then .error (str "No valid symptoms provided")
    else .ok (searchCore catalog (sanitizeSymptoms raws))

/-! ## determineUrgencyLevel and calculateSymptomMatchScore
(diseaseController.ts, lines 755–804) -/

/-- The hardcoded `emergencySymptoms` list of `determineUrgencyLevel`
(lines 779–783). -/
def EMERGENCY_SYMPTOMS : List (List Char) :=
  [str "dolor de pecho severo", str "dificultad para respirar", str "convulsiones",
   str "pérdida de consciencia", str "sangrado abundante", str "vómito con sangre",
   str "dolor abdominal severo", str "fiebre muy alta"]

/-- The `hasEmergencySymptom` scan of lines 785–789. -/
def hasEmergencySymptomIn (symptoms : List (List Char)) : Bool :=
  symptoms.any (fun s => EMERGENCY_SYMPTOMS.any (fun e => containsSub (lowerStr e) (lowerStr s)))

/-- `painLevel && painLevel >= k` with an absent pain level being falsy. -/
def painAtLeast (k : Nat) (painLevel : Option Nat) : Bool :=
  match painLevel with
  | some p => k ≤ p
  | none => false

/-- `DiseaseController.determineUrgencyLevel` (lines 777–804).  Note the
return values are the JS strings `'immediate' | 'urgent' | 'moderate' | 'low'`. -/
def determineUrgencyLevel (severityLevel : Severity) (category : List Char)
    (symptoms : List (List Char)) (painLevel : Option Nat) : List Char :=
  if hasEmergencySymptomIn symptoms || painAtLeast 8 painLevel then str "immediate"
  else if severityLevel == Severity.severe || category == str "emergency" then str "urgent"
  else if severityLevel == Severity.moderate || painAtLeast 6 painLevel then str "moderate"
  else str "low"

/-- JS `Math.round` (round half toward positive infinity). -/
def jsRound (q : ℚ) : ℤ := ⌊q + 1/2⌋

/-- `DiseaseController.calculateSymptomMatchScore` (lines 755–772): the
fraction of the PATIENT's symptoms matched, scaled by 100 and rounded; an
empty disease symptom list yields 0. -/
def calculateSymptomMatchScore (patientSymptoms diseaseSymptoms : List (List Char)) : ℚ :=
  if diseaseSymptoms.length = 0 then 0
  else
    let np := patientSymptoms.map (fun s => lowerStr (jsTrim s))
    let nd := diseaseSymptoms.map (fun s => lowerStr (jsTrim s))
    let matched := np.filter (fun p => nd.any (fun dsym => containsSub p dsym || containsSub dsym p))
    ((jsRound ((matched.length : ℚ) / (np.length : ℚ) * 100)) : ℚ)

/-! ## Validators (medicalUtils.ts, lines 212–247) -/

/-- `MedicalDataValidator.validatePainScale`. -/
def validatePainScale (intensity : ℤ) : Bool :=
  1 ≤ intensity && intensity ≤ 10

/-- `MedicalDataValidator.validateSymptoms`, reduced to its validity verdict
(`valid` is true exactly when the errors list stays empty). -/
def validateSymptoms (symptoms : List (List Char)) : Bool :=
  if symptoms = [] then false
  else symptoms.length ≤ 20 &&
    symptoms.all (fun s => 2 ≤ (jsTrim s).length && s.length ≤ 200)

/-! ## Helper lemmas -/

/-- A successful sanitize returns exactly the transformation chain's output. -/
theorem sanitize_eq_ok_of_clean (message : List Char)
    (hclean : hasForbiddenTerm (sanitizeCore message) = false) :
    sanitize message = .ok (sanitizeCore message) := by
  unfold sanitize
  by_cases hm : message = []
  · subst hm; rfl
  · rw [if_neg hm, if_neg (by rw [hclean]; exact Bool.false_ne_true)]

theorem collapseWs_replicate_a (b : Bool) (n : Nat) :
    collapseWs b (List.replicate n 'a') = List.replicate n 'a' := by
  have hws : isWs 'a' = false := by decide
  induction n generalizing b with
  | zero => rfl
  | succ n ih => simp [List.replicate_succ, collapseWs, hws, ih]

theorem sanitizeCore_replicate_a (n : Nat) :
    sanitizeCore (List.replicate n 'a') = List.replicate (min 2000 n) 'a' := by
  have hws : isWs 'a' = false := by decide
  have hlow : jsToLower 'a' = 'a' := by decide
  have hdang : (!isDangerousChar 'a') = true := by decide
  unfold sanitizeCore jsTrim
  rw [List.dropWhile_replicate, if_neg (by simp [hws]), List.reverse_replicate,
    List.dropWhile_replicate, if_neg (by simp [hws]), List.reverse_replicate,
    List.map_replicate, hlow, List.filter_replicate, if_pos hdang,
    collapseWs_replicate_a, List.take_replicate]

theorem isPrefixOf_replicate_a {c : Char} (cs : List Char) (h : (c == 'a') = false) (k : Nat) :
    List.isPrefixOf (c :: cs) (List.replicate k 'a') = false := by
  cases k with
  | zero => rfl
  | succ k => simp [List.replicate_succ, List.isPrefixOf, h]

theorem containsSub_replicate_a {t c cs} (ht : t = c :: cs) (h : (c == 'a') = false) (m : Nat) :
    containsSub t (List.replicate m 'a') = false := by
  subst ht
  unfold containsSub
  simp only [List.any_eq_false]
  intro i _
  rw [List.drop_replicate, isPrefixOf_replicate_a cs h]
  simp

theorem hasForbiddenTerm_replicate_a (m : Nat) :
    hasForbiddenTerm (List.replicate m 'a') = false := by
  unfold hasForbiddenTerm FORBIDDEN_TERMS
  simp only [List.any_cons, List.any_nil, Bool.or_eq_false_iff]
  exact ⟨@containsSub_replicate_a _ 'd' (str "rogas") (by decide) (by decide) m,
    @containsSub_replicate_a _ 'n' (str "arcóticos") (by decide) (by decide) m,
    @containsSub_replicate_a _ 'r' (str "eceta falsa") (by decide) (by decide) m,
    @containsSub_replicate_a _ 'f' (str "armacia ilegal") (by decide) (by decide) m,
    @containsSub_replicate_a _ 'c' (str "omprar pastillas") (by decide) (by decide) m,
    @containsSub_replicate_a _ 'm' (str "edicamentos baratos") (by decide) (by decide) m,
    trivial⟩

/-! ## Claim C1 -/

/-- C1 (corrected): if the sanitized form of the text contains no forbidden
term and still contains a critical phrase, `processMessage` short-circuits to
the emergency response with `emergencyDetected = true`, independently of the
supplied user context, and the conversation risk level derived from such a
response is `emergency` for every confidence value. -/
theorem c1_emergency_short_circuit (message : List Char) (ctx ctx' : UserContext) (conf : ℚ)
    (hclean : hasForbiddenTerm (sanitizeCore message) = false)
    (hhit : detectEmergency (sanitizeCore message) = true) :
    processMessage message ctx =
      ChatOutcome.emergency (detectedEmergencyKeywords (sanitizeCore message)) ∧
    emergencyDetectedOf (processMessage message ctx) = true ∧
    processMessage message ctx = processMessage message ctx' ∧
    determineRiskLevel (emergencyDetectedOf (processMessage message ctx)) conf =
      RiskLevel.emergency := by
  have hp : processMessage message ctx =
      ChatOutcome.emergency (detectedEmergencyKeywords (sanitizeCore message)) := by
    unfold processMessage
    rw [sanitize_eq_ok_of_clean message hclean]
    simp [hhit]
  refine ⟨hp, by rw [hp]; rfl, rfl, ?_⟩
  rw [hp]
  rfl

/-- Witness for C1 at a concrete uppercase message and two different contexts. -/
theorem c1_emergency_short_circuit_witness :
    hasForbiddenTerm (sanitizeCore (str "Tengo VÓMITO CON SANGRE")) = false ∧
    detectEmergency (sanitizeCore (str "Tengo VÓMITO CON SANGRE")) = true ∧
    (processMessage (str "Tengo VÓMITO CON SANGRE") ⟨some 30, some 2, [], none⟩ =
      ChatOutcome.emergency
        (detectedEmergencyKeywords (sanitizeCore (str "Tengo VÓMITO CON SANGRE"))) ∧
    emergencyDetectedOf
      (processMessage (str "Tengo VÓMITO CON SANGRE") ⟨some 30, some 2, [], none⟩) = true ∧
    processMessage (str "Tengo VÓMITO CON SANGRE") ⟨some 30, some 2, [], none⟩ =
      processMessage (str "Tengo VÓMITO CON SANGRE") ⟨none, none, [str "dolor"], none⟩ ∧
    determineRiskLevel
      (emergencyDetectedOf
        (processMessage (str "Tengo VÓMITO CON SANGRE") ⟨some 30, some 2, [], none⟩)) 0 =
      RiskLevel.emergency) :=
  ⟨by decide, by decide,
    c1_emergency_short_circuit (str "Tengo VÓMITO CON SANGRE")
      ⟨some 30, some 2, [], none⟩ ⟨none, none, [str "dolor"], none⟩ 0
      (by decide) (by decide)⟩

/-- Counterexample to C1 as stated: a text containing the critical phrase
"vómito con sangre" together with the forbidden term "medicamentos baratos"
makes the sanitizer throw, so `processMessage` returns the catch-branch
response with `emergencyDetected = false` instead of an emergency decision. -/
theorem c1_counterexample :
    (str "vómito con sangre") ∈ CRITICAL_EMERGENCY_KEYWORDS ∧
    containsSub (lowerStr (str "vómito con sangre"))
      (lowerStr (str "tengo vómito con sangre y busco medicamentos baratos")) = true ∧
    processMessage (str "tengo vómito con sangre y busco medicamentos baratos")
      ⟨none, some 9, [], none⟩ = ChatOutcome.errorFallback ∧
    emergencyDetectedOf
      (processMessage (str "tengo vómito con sangre y busco medicamentos baratos")
        ⟨none, some 9, [], none⟩) = false :=
  ⟨by decide, by decide, by rfl, by rfl⟩

/-! ## Claim C2 -/

/-- C2 (confirmed): `detectEmergency` is true exactly when some critical
phrase is a case-insensitive substring of the message, and the keyword list
of `handleEmergencyResponse` contains a phrase exactly when it is a critical
phrase occurring in the lowercased message — every phrase is checked, so the
evidence list is complete. -/
theorem c2_detector_exhaustive (message : List Char) :
    (detectEmergency message = true ↔
      ∃ k ∈ CRITICAL_EMERGENCY_KEYWORDS,
        containsSub (lowerStr k) (lowerStr message) = true) ∧
    (∀ k : List Char, k ∈ detectedEmergencyKeywords message ↔
      (k ∈ CRITICAL_EMERGENCY_KEYWORDS ∧
        containsSub (lowerStr k) (lowerStr message) = true)) := by
  constructor
  · unfold detectEmergency
    exact List.any_eq_true
  · intro k
    unfold detectedEmergencyKeywords
    exact List.mem_filter

/-! ## Claim C9 -/

/-- C9 (corrected): with the clock and the random source made explicit
parameters, all triage-relevant fields of the emergency response depend only
on the session id and message, while the timestamp equals the clock value —
so the decision content is deterministic but the full response object is
not. -/
theorem c9_determinism_modulo_id_and_time (sid m : List Char)
    (now now' : Nat) (r r' : List Char) :
    (emergencyResponse sid m now r).message = (emergencyResponse sid m now' r').message ∧
    (emergencyResponse sid m now r).confidence =
      (emergencyResponse sid m now' r').confidence ∧
    (emergencyResponse sid m now r).emergencyDetected =
      (emergencyResponse sid m now' r').emergencyDetected ∧
    (emergencyResponse sid m now r).suggestedActions =
      (emergencyResponse sid m now' r').suggestedActions ∧
    (emergencyResponse sid m now r).disclaimer =
      (emergencyResponse sid m now' r').disclaimer ∧
    (emergencyResponse sid m now r).timestamp = now :=
  ⟨rfl, rfl, rfl, rfl, rfl, rfl⟩

/-- Counterexample to C9 as stated: two calls on the identical message at
clock values 0 and 1 produce different response objects (their timestamps
differ), and different random draws produce different message ids — the
output does depend on the current time and on randomness. -/
theorem c9_counterexample :
    emergencyResponse (str "med_x") (str "vómito con sangre") 0 (str "aaaaaaaaa") ≠
      emergencyResponse (str "med_x") (str "vómito con sangre") 1 (str "aaaaaaaaa") ∧
    (emergencyResponse (str "med_x") (str "vómito con sangre") 0 (str "aaaaaaaaa")).messageId ≠
      (emergencyResponse (str "med_x") (str "vómito con sangre") 0 (str "bbbbbbbbb")).messageId := by
  constructor
  · intro h
    have h2 := congrArg ChatResponseModel.timestamp h
    simp [emergencyResponse] at h2
  · decide

/-! ## Claim C10 -/

/-- C10 (confirmed): the conversation risk level is `emergency` exactly when
`emergencyDetected` is true; otherwise it is computed from the confidence
alone (`< 0.5`: high, `< 0.7`: medium, else low) and can never be
`emergency`. -/
theorem c10_risk_iff_emergency (conf : ℚ) :
    determineRiskLevel true conf = RiskLevel.emergency ∧
    determineRiskLevel false conf ≠ RiskLevel.emergency ∧
    determineRiskLevel false conf =
      (if conf < 1/2 then RiskLevel.high
       else if conf < 7/10 then RiskLevel.medium
       else RiskLevel.low) := by
  unfold determineRiskLevel
  refine ⟨by simp, ?_, by simp⟩
  simp only [Bool.false_eq_true, if_false]
  split_ifs <;> decide

/-! ## Claim C3 -/

/-- C3 (corrected): `determineUrgencyLevel` evaluates its guards first-match-
wins — (1) a reported symptom containing a hardcoded emergency phrase, or
pain level ≥ 8, gives `'immediate'`; (2) else severity `severe` or category
`'emergency'` gives `'urgent'`; (3) else severity `moderate` or pain level
≥ 6 gives `'moderate'`; (4) else `'low'` — so its codomain is
`{immediate, urgent, moderate, low}`, not `{routine, urgent, immediate}`,
and it returns no risk level; the `emergencyDetected → emergency` guard
lives separately in `ChatController.determineRiskLevel`. -/
theorem c3_urgency_guard_cascade (sev : Severity) (cat : List Char)
    (syms : List (List Char)) (pain : Option Nat) (conf : ℚ) :
    (determineUrgencyLevel sev cat syms pain = str "immediate" ↔
      (hasEmergencySymptomIn syms || painAtLeast 8 pain) = true) ∧
    (determineUrgencyLevel sev cat syms pain = str "urgent" ↔
      ((hasEmergencySymptomIn syms || painAtLeast 8 pain) = false ∧
       (sev == Severity.severe || cat == str "emergency") = true)) ∧
    (determineUrgencyLevel sev cat syms pain = str "moderate" ↔
      ((hasEmergencySymptomIn syms || painAtLeast 8 pain) = false ∧
       (sev == Severity.severe || cat == str "emergency") = false ∧
       (sev == Severity.moderate || painAtLeast 6 pain) = true)) ∧
    (determineUrgencyLevel sev cat syms pain = str "low" ↔
      ((hasEmergencySymptomIn syms || painAtLeast 8 pain) = false ∧
       (sev == Severity.severe || cat == str "emergency") = false ∧
       (sev == Severity.moderate || painAtLeast 6 pain) = false)) ∧
    determineUrgencyLevel sev cat syms pain ∈
      [str "immediate", str "urgent", str "moderate", str "low"] ∧
    determineRiskLevel true conf = RiskLevel.emergency := by
  unfold determineUrgencyLevel
  rcases hg1 : (hasEmergencySymptomIn syms || painAtLeast 8 pain) <;>
    rcases hg2 : (sev == Severity.severe || cat == str "emergency") <;>
      rcases hg3 : (sev == Severity.moderate || painAtLeast 6 pain) <;>
        simp [determineRiskLevel] <;> decide

/-- Counterexample to C3 as stated: for a `moderate` disease with no
reported symptoms and no pain level the classifier returns the string
`'moderate'`, which is not one of the claimed urgency values
`{routine, urgent, immediate}` (and `'routine'` is never produced). -/
theorem c3_counterexample :
    determineUrgencyLevel Severity.moderate (str "digestive") [] none = str "moderate" ∧
    str "moderate" ∉ [str "routine", str "urgent", str "immediate"] := by
  decide

/-! ## Matcher helper lemmas -/

theorem candBefore_score_le {a b : ScoredDisease} (h : candBefore a b) :
    b.matchScore ≤ a.matchScore := by
  rcases h with h | ⟨h, _⟩
  · exact le_of_lt h
  · exact le_of_eq h.symm

theorem candBefore_tie_rank {a b : ScoredDisease} (h : candBefore a b)
    (heq : a.matchScore = b.matchScore) :
    sevRank b.severityLevel ≤ sevRank a.severityLevel := by
  rcases h with h | ⟨_, h⟩
  · rw [heq] at h; exact absurd h (lt_irrefl _)
  · exact h

/-- Any disease selected by the `hasSome` filter has a nonempty symptom
array. -/
theorem eligible_symptoms_ne_nil {catalog : List Disease} {users : List (List Char)}
    {d : Disease} (hd : d ∈ findDiseasesBySymptoms catalog users) : d.symptoms ≠ [] := by
  unfold findDiseasesBySymptoms at hd
  have h := (List.mem_filter.mp hd).2
  rw [Bool.and_eq_true] at h
  intro hnil
  rw [hnil] at h
  simp at h

/-- Every returned candidate is the score record of some eligible disease. -/
theorem candidate_from_eligible {catalog : List Disease} {users : List (List Char)}
    {c : ScoredDisease} (hc : c ∈ scoredCandidates catalog users) :
    ∃ d ∈ findDiseasesBySymptoms catalog users, scoreDisease users d = c := by
  unfold scoredCandidates at hc
  have h1 := List.mem_of_mem_take hc
  have h2 := (List.perm_insertionSort candBefore (scoredAll catalog users)).mem_iff.mp h1
  unfold scoredAll at h2
  exact List.mem_map.mp h2

theorem jsRound_between {x : ℚ} (h0 : 0 ≤ x) (h1 : x ≤ 100) :
    0 ≤ ((jsRound x : ℤ) : ℚ) ∧ ((jsRound x : ℤ) : ℚ) ≤ 100 := by
  unfold jsRound
  constructor
  · have h : (0 : ℤ) ≤ ⌊x + 1/2⌋ := by
      rw [Int.le_floor]
      push_cast
      linarith
    exact_mod_cast h
  · have h : ⌊x + 1/2⌋ ≤ 100 := by
      rw [← Int.lt_add_one_iff, Int.floor_lt]
      push_cast
      linarith
    exact_mod_cast h

/-! ## Claim C4 -/

/-- C4 (confirmed): the returned candidate list is the at-most-10-element
prefix of a sorted permutation of all scored eligible diseases, where the
sort order is `matchScore` descending with ties broken by severity rank
descending (`emergency > severe > moderate > mild`); consequently the
returned list itself is non-increasing in `matchScore` and, on score ties,
non-increasing in severity rank.  Truncation applies to the fully sorted
list, never before sorting. -/
theorem c4_candidates_sorted_top10 (catalog : List Disease) (users : List (List Char)) :
    ∃ full : List ScoredDisease,
      full.Perm (scoredAll catalog users) ∧
      List.Sorted candBefore full ∧
      scoredCandidates catalog users = full.take 10 ∧
      (scoredCandidates catalog users).length ≤ 10 ∧
      List.Sorted (fun a b => b.matchScore ≤ a.matchScore)
        (scoredCandidates catalog users) ∧
      List.Sorted (fun a b => a.matchScore = b.matchScore →
          sevRank b.severityLevel ≤ sevRank a.severityLevel)
        (scoredCandidates catalog users) := by
  have hs := List.sorted_insertionSort candBefore (scoredAll catalog users)
  have hsub : (scoredCandidates catalog users).Sublist
      (List.insertionSort candBefore (scoredAll catalog users)) := List.take_sublist _ _
  have hpw : List.Pairwise candBefore (scoredCandidates catalog users) :=
    List.Pairwise.sublist hsub hs
  exact ⟨List.insertionSort candBefore (scoredAll catalog users),
    List.perm_insertionSort _ _, hs, rfl, List.length_take_le _ _,
    hpw.imp candBefore_score_le,
    hpw.imp (fun h heq => candBefore_tie_rank h heq)⟩

/-! ## Claim C5 -/

/-- C5 (confirmed): every disease selected for scoring has a nonempty
related-symptom array (so the score's denominator is never zero), every
returned candidate has a positive `totalSymptoms`, and a catalog disease
with an empty symptom array is never selected by the eligibility filter. -/
theorem c5_empty_symptom_diseases_excluded (catalog : List Disease)
    (users : List (List Char)) :
    (findDiseasesBySymptoms catalog users).all (fun d => !d.symptoms.isEmpty) = true ∧
    (scoredCandidates catalog users).all (fun c => decide (0 < c.totalSymptoms)) = true ∧
    catalog.all (fun d => !d.symptoms.isEmpty ||
      !(decide (d ∈ findDiseasesBySymptoms catalog users))) = true := by
  refine ⟨List.all_eq_true.mpr ?_, List.all_eq_true.mpr ?_, List.all_eq_true.mpr ?_⟩
  · intro d hd
    simpa [List.isEmpty_iff] using eligible_symptoms_ne_nil hd
  · intro c hc
    obtain ⟨d, hd, hdc⟩ := candidate_from_eligible hc
    rw [decide_eq_true_eq, ← hdc]
    show 0 < d.symptoms.length
    exact List.length_pos.mpr (eligible_symptoms_ne_nil hd)
  · intro d _
    by_cases hmem : d ∈ findDiseasesBySymptoms catalog users
    · have := eligible_symptoms_ne_nil hmem
      simp [List.isEmpty_iff, this]
    · simp [hmem]

/-! ## Claim C7 -/

/-- C7 (corrected): in the symptom-set mode each candidate's `matchScore`
equals `|matchingSymptoms| / |disease.symptoms|` and lies in `[0, 1]`, but
the free-text overlap mode (`calculateSymptomMatchScore`) instead returns
`round(100 · |matched patient symptoms| / |patient symptoms|)`, an integer
value in `[0, 100]` whose denominator is the PATIENT's symptom count — the
two modes are not on one numeric scale. -/
theorem c7_two_score_scales (catalog : List Disease) (users : List (List Char))
    (p d : List (List Char)) (hp : p ≠ []) :
    (scoredCandidates catalog users).all (fun c =>
      decide (c.matchScore = (c.matchingSymptoms.length : ℚ) / (c.totalSymptoms : ℚ) ∧
        0 ≤ c.matchScore ∧ c.matchScore ≤ 1)) = true ∧
    0 ≤ calculateSymptomMatchScore p d ∧ calculateSymptomMatchScore p d ≤ 100 := by
  refine ⟨List.all_eq_true.mpr ?_, ?_⟩
  · intro c hc
    obtain ⟨dd, hdd, hddc⟩ := candidate_from_eligible hc
    rw [decide_eq_true_eq, ← hddc]
    have hne : dd.symptoms ≠ [] := eligible_symptoms_ne_nil hdd
    have hpos : (0 : ℚ) < (dd.symptoms.length : ℚ) := by
      exact_mod_cast List.length_pos.mpr hne
    refine ⟨rfl, div_nonneg (by positivity) (by positivity), ?_⟩
    show ((matchingSymptomsOf users dd).length : ℚ) / (dd.symptoms.length : ℚ) ≤ 1
    rw [div_le_one hpos]
    exact_mod_cast List.length_filter_le _ _
  · unfold calculateSymptomMatchScore
    by_cases hd0 : d.length = 0
    · simp [hd0]
    · rw [if_neg hd0]
      have hnplen : 0 < ((p.map (fun s => lowerStr (jsTrim s))).length : ℚ) := by
        rw [List.length_map]
        exact_mod_cast List.length_pos.mpr hp
      have h1 : ((((p.map (fun s => lowerStr (jsTrim s))).filter (fun q =>
          (d.map (fun s => lowerStr (jsTrim s))).any
            (fun dsym => containsSub q dsym || containsSub dsym q))).length : ℚ) /
          ((p.map (fun s => lowerStr (jsTrim s))).length : ℚ)) ≤ 1 := by
        rw [div_le_one hnplen]
        exact_mod_cast List.length_filter_le _ _
      exact jsRound_between (by positivity) (by nlinarith)

/-- A one-disease demonstration catalog used by concrete witnesses. -/
def demoDisease : Disease where
  id := 1
  name := str "Gastritis"
  description := str "Inflamación de la mucosa del estómago"
  symptoms := [str "dolor abdominal", str "náuseas"]
  severityLevel := Severity.moderate
  category := str "digestive"
  isActive := true

/-- Witness for C7 at a one-disease catalog and a concrete free-text pair. -/
theorem c7_two_score_scales_witness :
    ([str "dolor"] : List (List Char)) ≠ [] ∧
    ((scoredCandidates [demoDisease] [str "náuseas"]).all (fun c =>
      decide (c.matchScore = (c.matchingSymptoms.length : ℚ) / (c.totalSymptoms : ℚ) ∧
        0 ≤ c.matchScore ∧ c.matchScore ≤ 1)) = true ∧
    0 ≤ calculateSymptomMatchScore [str "dolor"] [str "dolor", str "fiebre"] ∧
    calculateSymptomMatchScore [str "dolor"] [str "dolor", str "fiebre"] ≤ 100) :=
  ⟨by decide,
    c7_two_score_scales [demoDisease] [str "náuseas"] [str "dolor"]
      [str "dolor", str "fiebre"] (by decide)⟩

/-- Counterexample to C7 as stated: with one reported symptom "dolor" against
a disease knowing "dolor" and "fiebre", the claimed score would be
`1/2 ∈ [0, 1]`, but the free-text mode returns `100` — computed over the
patient's symptom count on a 0–100 scale, not over the disease's repertoire
on a 0–1 scale. -/
theorem c7_counterexample :
    calculateSymptomMatchScore [str "dolor"] [str "dolor", str "fiebre"] = 100 ∧
    ¬ calculateSymptomMatchScore [str "dolor"] [str "dolor", str "fiebre"] ≤ 1 ∧
    ((1 : ℚ) / 2 ≠ 100) := by
  have hcalc : calculateSymptomMatchScore [str "dolor"] [str "dolor", str "fiebre"] =
      ((jsRound (((1 : ℕ) : ℚ) / ((1 : ℕ) : ℚ) * 100) : ℤ) : ℚ) := by
    unfold calculateSymptomMatchScore
    rw [if_neg (by decide)]
    rfl
  have hjs : jsRound (((1 : ℕ) : ℚ) / ((1 : ℕ) : ℚ) * 100) = 100 := by
    have h : (((1 : ℕ) : ℚ) / ((1 : ℕ) : ℚ) * 100) = 100 := by norm_num
    rw [h]
    unfold jsRound
    norm_num
  rw [hcalc, hjs]
  norm_num

/-! ## Claim C6 -/

/-- C6 (corrected): an empty symptom list is REJECTED with the validation
error `'Symptoms array is required and must not be empty'` (it does not
produce a decision); a valid symptom list matching no disease yields the
no-match result with empty candidates, urgency label `'low'` and a non-empty
recommendation list; and the empty chat message is not an error in
`processMessage` — it proceeds to the AI flow with no emergency. -/
theorem c6_empty_inputs (catalog : List Disease) (users : List (List Char))
    (ctx : UserContext) (hnone : findDiseasesBySymptoms catalog users = []) :
    searchDiseasesBySymptoms catalog [] =
      .error (str "Symptoms array is required and must not be empty") ∧
    (searchCore catalog users).matchingDiseases = [] ∧
    (searchCore catalog users).urgencyLevel = str "low" ∧
    (searchCore catalog users).recommendations ≠ [] ∧
    processMessage [] ctx = ChatOutcome.aiFlow [] := by
  have hcand : scoredCandidates catalog users = [] := by
    unfold scoredCandidates scoredAll
    rw [hnone]
    rfl
  have hcore : searchCore catalog users =
      { searchedSymptoms := users
        matchingDiseases := []
        urgencyLevel := str "low"
        totalMatches := 0
        recommendations := getSearchRecommendations (str "low") [] } := by
    unfold searchCore
    rw [hcand]
    rfl
  refine ⟨rfl, ?_, ?_, ?_, rfl⟩
  · rw [hcore]
  · rw [hcore]
  · rw [hcore]
    show getSearchRecommendations (str "low") [] ≠ []
    decide

/-- Witness for C6 on the empty catalog and the symptom list `["dolor"]`. -/
theorem c6_empty_inputs_witness :
    findDiseasesBySymptoms [] [str "dolor"] = [] ∧
    (searchDiseasesBySymptoms [] [] =
      .error (str "Symptoms array is required and must not be empty") ∧
    (searchCore [] [str "dolor"]).matchingDiseases = [] ∧
    (searchCore [] [str "dolor"]).urgencyLevel = str "low" ∧
    (searchCore [] [str "dolor"]).recommendations ≠ [] ∧
    processMessage [] ⟨none, none, [], none⟩ = ChatOutcome.aiFlow []) :=
  ⟨rfl, c6_empty_inputs [] [str "dolor"] ⟨none, none, [], none⟩ rfl⟩

/-- Counterexample to C6 as stated: `matchBySymptomList([])` does not return
a valid low-risk decision — the entry point throws the validation error, so
its result carries no decision at all. -/
theorem c6_counterexample :
    searchDiseasesBySymptoms [demoDisease] [] =
      .error (str "Symptoms array is required and must not be empty") ∧
    (searchDiseasesBySymptoms [demoDisease] []).toOption = none := by
  exact ⟨rfl, rfl⟩

/-! ## Claim C8 -/

/-- C8 (corrected): over-long symptom lists and out-of-range pain levels are
rejected by validation before the pipeline (more than 20 symptoms fails
`validateSymptoms` and makes `searchDiseasesBySymptoms` throw; a pain level
outside `[1, 10]` fails `validatePainScale`), but over-long TEXT is not
rejected: `MedicalContentSanitizer.sanitize` silently truncates the message
to its first 2000 characters before any matching. -/
theorem c8_validation_and_truncation (syms : List (List Char)) (ip : ℤ)
    (catalog : List Disease) (raws : List (List Char)) (m : List Char)
    (hs : 20 < syms.length) (hip : ip < 1 ∨ 10 < ip) (hraws : 20 < raws.length) :
    validateSymptoms syms = false ∧
    validatePainScale ip = false ∧
    searchDiseasesBySymptoms catalog raws =
      .error (str "Too many symptoms provided (maximum 20)") ∧
    (sanitizeCore m).length ≤ 2000 := by
  have h0 : syms ≠ [] := by
    intro h
    rw [h] at hs
    simp at hs
  have hraws0 : raws ≠ [] := by
    intro h
    rw [h] at hraws
    simp at hraws
  refine ⟨?_, ?_, ?_, ?_⟩
  · unfold validateSymptoms
    rw [if_neg h0]
    simp [show ¬(syms.length ≤ 20) by omega]
  · unfold validatePainScale
    rcases hip with h | h
    · simp [show ¬(1 ≤ ip) by omega]
    · simp [show ¬(ip ≤ 10) by omega]
  · unfold searchDiseasesBySymptoms
    rw [if_neg hraws0, if_pos hraws]
  · unfold sanitizeCore
    exact List.length_take_le _ _

/-- Witness for C8: 21 symptoms, pain level 11, and a short message. -/
theorem c8_validation_and_truncation_witness :
    20 < (List.replicate 21 (str "ab")).length ∧
    ((11 : ℤ) < 1 ∨ (10 : ℤ) < 11) ∧
    (validateSymptoms (List.replicate 21 (str "ab")) = false ∧
    validatePainScale 11 = false ∧
    searchDiseasesBySymptoms [demoDisease] (List.replicate 21 (str "ab")) =
      .error (str "Too many symptoms provided (maximum 20)") ∧
    (sanitizeCore (str "hola doctor")).length ≤ 2000) :=
  ⟨by decide, Or.inr (by decide),
    c8_validation_and_truncation (List.replicate 21 (str "ab")) 11 [demoDisease]
      (List.replicate 21 (str "ab")) (str "hola doctor")
      (by decide) (Or.inr (by decide)) (by decide)⟩

/-- Counterexample to C8 as stated: a 2001-character message is not rejected;
the sanitizer silently returns its 2000-character prefix, altering the input
instead of signalling a validation failure. -/
theorem c8_counterexample :
    sanitize (List.replicate 2001 'a') = Except.ok (List.replicate 2000 'a') ∧
    List.replicate 2000 'a' ≠ List.replicate 2001 'a' := by
  have hmin : min 2000 2001 = 2000 := by norm_num
  constructor
  · unfold sanitize
    rw [if_neg (fun hh => by rw [List.replicate_eq_nil_iff] at hh; omega),
      sanitizeCore_replicate_a, hmin,
      if_neg (by rw [hasForbiddenTerm_replicate_a]; exact Bool.false_ne_true)]
  · intro h
    have h2 := congrArg List.length h
    rw [List.length_replicate, List.length_replicate] at h2
    omega

end ChatbotGastro
